import Mathlib

/-!
Verification of the `pipewire_python.link` module: a shallow embedding of its
port/link data model, the `pw-link` output parsers, the stereo pairing
heuristic, and the connect/disconnect argument generation, together with
theorems settling the specification claims.

Python-level conventions of the embedding:
* Python strings are Lean `String` (operations are implemented on `List Char`);
* code that can raise is embedded in `Except PyError`;
* `None`-able attributes are `Option`.
-/

/-- Python exception classes that the embedded code can raise.
`invalidLink` embeds `link.InvalidLink` (a `ValueError` subclass). -/
inductive PyError where
  | invalidLink (msg : String)
  | indexError
  | valueError (msg : String)
deriving DecidableEq, Repr

/-- The needle character list is a prefix of the haystack
(helper for Python's substring test `needle in hay`). -/
def isPrefixChars : List Char → List Char → Bool
  | [], _ => true
  | _ :: _, [] => false
  | a :: as, b :: bs => a = b && isPrefixChars as bs

/-- Python `needle in hay` on strings: substring containment. -/
def containsSub (needle : List Char) : List Char → Bool
  | [] => isPrefixChars needle []
  | b :: bs => isPrefixChars needle (b :: bs) || containsSub needle bs

/-- Python `s.split(sep)` (split on every occurrence of `sep`);
`"".split(sep) == [""]`. -/
def splitAllChars (sep : Char) : List Char → List (List Char)
  | [] => [[]]
  | c :: cs =>
    if c = sep then [] :: splitAllChars sep cs
    else
      match splitAllChars sep cs with
      | [] => [[c]]
      | l :: ls => (c :: l) :: ls

/-- Python `s.split(sep, maxsplit=1)`: split at the first occurrence of `sep`
only; yields a one-element list when `sep` does not occur. -/
def pySplitOnceChars (sep : Char) : List Char → List (List Char)
  | [] => [[]]
  | c :: cs =>
    if c = sep then [[], cs]
    else
      match pySplitOnceChars sep cs with
      | [x] => [c :: x]
      | [x, y] => [c :: x, y]
      | _ => []

/-- Python `s.lstrip()` (no argument): drop leading whitespace. -/
def pyLstripChars (l : List Char) : List Char :=
  l.dropWhile Char.isWhitespace

/-- Python `s.strip()` (no argument): drop whitespace at both ends. -/
def pyStripWsChars (l : List Char) : List Char :=
  ((l.dropWhile Char.isWhitespace).reverse.dropWhile Char.isWhitespace).reverse

/-- Python `s.strip(" ")`: drop space characters (only) at both ends. -/
def pyStripSpaceChars (l : List Char) : List Char :=
  ((l.dropWhile (· = ' ')).reverse.dropWhile (· = ' ')).reverse

/-- Python `s.upper()` (the relevant inputs are ASCII). -/
def pyUpper (s : String) : String :=
  String.mk (s.data.map Char.toUpper)

/-- Digit-sequence value: `some` of the denoted natural number when the list
is nonempty and all digits, else `none`. -/
def digitsVal (l : List Char) : Option Nat :=
  if l.isEmpty then none
  else if l.all Char.isDigit then
    some (l.foldl (fun acc c => acc * 10 + (c.toNat - 48)) 0)
  else none

/-- Python `int(s)`: surrounding whitespace tolerated, optional sign, then a
nonempty digit sequence; `none` embeds the `ValueError` raise. -/
def pyInt (s : String) : Option Int :=
  match pyStripWsChars s.data with
  | '-' :: ds => (digitsVal ds).map (fun n => -(n : Int))
  | '+' :: ds => (digitsVal ds).map (fun n => (n : Int))
  | ds => (digitsVal ds).map (fun n => (n : Int))

/-- Number of `\x7b\x7d` (open-close brace pair) replacement fields in a
format template. -/
def countFields : List Char → Nat
  | c :: d :: ds =>
    if c = '\x7b' && d = '\x7d' then 1 + countFields ds
    else countFields (d :: ds)
  | _ => 0

/-- Replace every `\x7b\x7d` field with `arg`. -/
def substFields (arg : List Char) : List Char → List Char
  | c :: d :: ds =>
    if c = '\x7b' && d = '\x7d' then arg ++ substFields arg ds
    else c :: substFields arg (d :: ds)
  | l => l

/-- Python `template.format(arg)` with one positional argument: every
auto-numbered field beyond the first refers to a missing positional argument,
so CPython raises `IndexError` whenever the template holds two or more
fields. -/
def pyFormatOne (template arg : String) : Except PyError String :=
  if countFields template.data ≥ 2 then .error .indexError
  else .ok (String.mk (substFields arg.data template.data))

/-! ## Data model (`link.py`) -/

/-- `link.PortType`: input or output designation. -/
inductive PortType where
  | INPUT
  | OUTPUT
deriving DecidableEq, Repr

/-- `link.Port` dataclass: device, name, id, port_type, is_midi. -/
structure Port where
  device : String
  name : String
  id : Int
  port_type : PortType
  is_midi : Bool := false
deriving DecidableEq, Repr

/-- `link.PW_LINK_COMMAND`. -/
def PW_LINK_COMMAND : String := "pw-link"

/-- The message passed by `Port.connect` (literal braces shown escaped). -/
def connectMessage : String := "Cannot connect an \x7b\x7d to another \x7b\x7d."

/-- The message passed by `Port.disconnect` (literal braces shown escaped). -/
def disconnectMessage : String := "Cannot disconnect an \x7b\x7d from another \x7b\x7d."

/-- `Port._join_arguments`: builds `[pw-link, output "device:name",
input "device:name"]`, raising when the two ports share a direction.  The
`raise InvalidLink(message.format(...))` first evaluates the format call,
whose own exception (if any) preempts `InvalidLink`. -/
def joinArguments (self other : Port) (message : String) :
    Except PyError (List String) :=
  if self.port_type = PortType.INPUT then
    if other.port_type = PortType.INPUT then
      match pyFormatOne message "input" with
      | .error e => .error e
      | .ok m => .error (.invalidLink m)
    else
      .ok [PW_LINK_COMMAND, other.device ++ ":" ++ other.name,
           self.device ++ ":" ++ self.name]
  else
    if other.port_type = PortType.OUTPUT then
      match pyFormatOne message "output" with
      | .error e => .error e
      | .ok m => .error (.invalidLink m)
    else
      .ok [PW_LINK_COMMAND, self.device ++ ":" ++ self.name,
           other.device ++ ":" ++ other.name]

/-- `Port.connect`: the argument vector handed to the shell executor
(the execution side effect itself is out of scope; the vector is the
observable). -/
def Port.connectCmd (self other : Port) : Except PyError (List String) :=
  joinArguments self other connectMessage

/-- `Port.disconnect`: argument vector with the trailing `--disconnect`. -/
def Port.disconnectCmd (self other : Port) : Except PyError (List String) :=
  match joinArguments self other disconnectMessage with
  | .error e => .error e
  | .ok args => .ok (args ++ ["--disconnect"])

/-! ## Listing-output parsing (`_split_id_from_data`, `list_inputs`,
`list_outputs`) -/

/-- `_split_id_from_data` applied to the decoded stdout text: split into
lines, left-strip each, split once on the first space, keep only two-field
lines, and strip spaces from both fields.  (The shell invocation itself is
out of scope; the function is modelled on the decoded stdout string.) -/
def splitIdFromData (stdout : String) : List (String × String) :=
  (splitAllChars '\n' stdout.data).filterMap fun line =>
    match pySplitOnceChars ' ' (pyLstripChars line) with
    | [a, b] => some (String.mk (pyStripSpaceChars a),
                      String.mk (pyStripSpaceChars b))
    | _ => none

/-- One iteration of the `list_inputs`/`list_outputs` port loop:
`device, name = channel_data.split(":", maxsplit=1)` (raising `ValueError`
when there is no colon) then `int(channel_id)` (raising `ValueError` when
non-numeric). -/
def parsePortEntry (pt : PortType) (channelId channelData : String) :
    Except PyError Port :=
  match pySplitOnceChars ':' channelData.data with
  | [d, n] =>
    match pyInt channelId with
    | some k => .ok ⟨String.mk d, String.mk n, k, pt, false⟩
    | none => .error (.valueError "invalid literal for int")
  | _ => .error (.valueError "not enough values to unpack")

/-- The whole port loop over the `_split_id_from_data` entries. -/
def parsePortEntries (pt : PortType) :
    List (String × String) → Except PyError (List Port)
  | [] => .ok []
  | (cid, cdata) :: rest =>
    match parsePortEntry pt cid cdata with
    | .error e => .error e
    | .ok p =>
      match parsePortEntries pt rest with
      | .error e => .error e
      | .ok ps => .ok (p :: ps)

/-- `link.StereoInput` dataclass; the members are optional because callers
may build the pair with an absent channel (`None`), which the connect and
disconnect logic tests for truthiness. -/
structure StereoInput where
  left : Option Port
  right : Option Port
deriving DecidableEq, Repr

/-- `link.StereoOutput` dataclass. -/
structure StereoOutput where
  left : Option Port
  right : Option Port
deriving DecidableEq, Repr

/-- An element of the heterogeneous list returned by `list_inputs`:
either a paired `StereoInput` or a lone `Input` port. -/
inductive InputItem where
  | stereo (s : StereoInput)
  | mono (p : Port)
deriving DecidableEq, Repr

/-- An element of the heterogeneous list returned by `list_outputs`. -/
inductive OutputItem where
  | stereo (s : StereoOutput)
  | mono (p : Port)
deriving DecidableEq, Repr

/-- The stereo pairing scan of `list_inputs` (the `while i < num_ports`
loop): when the next port shares the device of the current one and its name
contains `FL` (respectively `FR`) once upper-cased, the two ports are paired
with the `FL`/`FR` port as left/right; otherwise the current port is kept
as a mono entry. -/
def pairInputs : List Port → List InputItem
  | [] => []
  | [a] => [.mono a]
  | a :: b :: rest =>
    if b.device = a.device then
      if containsSub "FL".data (pyUpper b.name).data then
        .stereo ⟨some b, some a⟩ :: pairInputs rest
      else if containsSub "FR".data (pyUpper b.name).data then
        .stereo ⟨some a, some b⟩ :: pairInputs rest
      else .mono a :: pairInputs (b :: rest)
    else .mono a :: pairInputs (b :: rest)

/-- The stereo pairing scan of `list_outputs` (same algorithm over
`StereoOutput`). -/
def pairOutputs : List Port → List OutputItem
  | [] => []
  | [a] => [.mono a]
  | a :: b :: rest =>
    if b.device = a.device then
      if containsSub "FL".data (pyUpper b.name).data then
        .stereo ⟨some b, some a⟩ :: pairOutputs rest
      else if containsSub "FR".data (pyUpper b.name).data then
        .stereo ⟨some a, some b⟩ :: pairOutputs rest
      else .mono a :: pairOutputs (b :: rest)
    else .mono a :: pairOutputs (b :: rest)

/-- `list_inputs`, as a function of the decoded stdout of
`pw-link --input --id`.  When `pair_stereo` is false the raw ports are
returned (wrapped as mono items so the result type is uniform). -/
def list_inputs (stdout : String) (pair_stereo : Bool := true) :
    Except PyError (List InputItem) :=
  match parsePortEntries PortType.INPUT (splitIdFromData stdout) with
  | .error e => .error e
  | .ok ports =>
    if pair_stereo then .ok (pairInputs ports)
    else .ok (ports.map InputItem.mono)

/-- `list_outputs`, as a function of the decoded stdout of
`pw-link --output --id`. -/
def list_outputs (stdout : String) (pair_stereo : Bool := true) :
    Except PyError (List OutputItem) :=
  match parsePortEntries PortType.OUTPUT (splitIdFromData stdout) with
  | .error e => .error e
  | .ok ports =>
    if pair_stereo then .ok (pairOutputs ports)
    else .ok (ports.map OutputItem.mono)

/-! ## Links (`Link`, `StereoLink`, `LinkGroup`) -/

/-- `link.Link` dataclass: id, input, output.  The dataclass-generated
constructor performs no validation whatsoever: the fields are stored exactly
as passed, whatever their directions. -/
structure Link where
  id : Option Int
  input : Port
  output : Port
deriving DecidableEq, Repr

/-- `link.StereoLink` dataclass. -/
structure StereoLink where
  left : Link
  right : Link
deriving DecidableEq, Repr

/-- The duck-typed pair object produced by the `StereoLink.inputs` /
`StereoLink.outputs` accessors: Python constructs `StereoInput(left=...,
right=...)` without any runtime type check, so the view is characterised by
whatever values populate its two fields. -/
structure DynStereo (α : Type) where
  left : α
  right : α
deriving DecidableEq, Repr

/-- `StereoLink.inputs`: the source passes `self.left` and `self.right`
(the member `Link` objects themselves, not their ports) to the
`StereoInput` constructor. -/
def StereoLink.inputs (sl : StereoLink) : DynStereo Link :=
  ⟨sl.left, sl.right⟩

/-- `StereoLink.outputs`: likewise passes the member `Link` objects. -/
def StereoLink.outputs (sl : StereoLink) : DynStereo Link :=
  ⟨sl.left, sl.right⟩

/-- `link.LinkGroup` dataclass. -/
structure LinkGroup where
  common_device : String
  common_name : String
  links : List Link
deriving DecidableEq, Repr

/-- `Link.disconnect`: `self.input.disconnect(self.output)`. -/
def Link.disconnectCmd (l : Link) : Except PyError (List String) :=
  Port.disconnectCmd l.input l.output

/-- `Link.reconnect`: `self.input.connect(self.output)`. -/
def Link.reconnectCmd (l : Link) : Except PyError (List String) :=
  Port.connectCmd l.input l.output

/-- Issue one command per link, in order, collecting the argument vectors. -/
def eachLinkCmd (f : Link → Except PyError (List String)) :
    List Link → Except PyError (List (List String))
  | [] => .ok []
  | l :: ls =>
    match f l with
    | .error e => .error e
    | .ok c =>
      match eachLinkCmd f ls with
      | .error e => .error e
      | .ok cs => .ok (c :: cs)

/-- `LinkGroup.disconnect`: `for link in self.links: link.disconnect()`. -/
def LinkGroup.disconnectCmds (lg : LinkGroup) :
    Except PyError (List (List String)) :=
  eachLinkCmd Link.disconnectCmd lg.links

/-- `LinkGroup.reconnect`: the source body is
`for link in self.links: link.disconnect()` — it issues disconnects. -/
def LinkGroup.reconnectCmds (lg : LinkGroup) :
    Except PyError (List (List String)) :=
  eachLinkCmd Link.disconnectCmd lg.links

/-! ## Link-listing parsing (`list_links`) -/

/-- First whitespace-token of a data field:
`s.split(" ", maxsplit=1)[0]`. -/
def firstToken (s : String) : String :=
  String.mk ((pySplitOnceChars ' ' s.data).headD [])

/-- The relation-line test of `list_links`:
`"|->" in data or "|<-" in data` (substring containment, as the source
tests with the `in` operator). -/
def lineHasGlyph (s : String) : Bool :=
  containsSub "|->".data s.data || containsSub "|<-".data s.data

/-- The anchor step of `list_links`: from the anchor entry `a` and the
entry `b` that follows it, split the anchor data on every colon
(`split(":")`, exactly two parts or `ValueError`), read the direction glyph
as the first token of `b`'s data field, and build the side-A port, whose
direction is INPUT exactly when the glyph equals `"|<-"`.  Returns the
direction string together with the port, as both are used downstream. -/
def parseAnchor (a b : String × String) : Except PyError (String × Port) :=
  match splitAllChars ':' a.2.data with
  | [d, n] =>
    match pyInt a.1 with
    | some k =>
      .ok (firstToken b.2,
        ⟨String.mk d, String.mk n, k,
         if firstToken b.2 = "|<-" then PortType.INPUT else PortType.OUTPUT,
         false⟩)
    | none => .error (.valueError "invalid literal for int")
  | _ => .error (.valueError "not enough values to unpack")

/-- The relation step of `list_links`: drop the glyph token
(`data.split(" ", 1)[1]`, `IndexError` when there is no space), strip,
split off the side-B identifier, split the remaining `device:name` on every
colon, and build the side-B port with the direction opposite to the anchor
(`OUTPUT` when the anchor glyph was `"|<-"`).  The resulting `Link` stores
the INPUT-direction side as `input` (the anchor when the anchor is INPUT,
side-B otherwise), with the relation entry's own identifier as link id. -/
def parseRelation (direction : String) (anchor : Port)
    (r : String × String) : Except PyError Link :=
  match pySplitOnceChars ' ' r.2.data with
  | [_, rest0] =>
    match pySplitOnceChars ' ' (pyStripWsChars rest0) with
    | [sid, bdata] =>
      match splitAllChars ':' bdata with
      | [bd, bn] =>
        match pyInt (String.mk sid) with
        | some bid =>
          match pyInt r.1 with
          | some lid =>
            if anchor.port_type = PortType.INPUT then
              .ok ⟨some lid, anchor,
                   ⟨String.mk bd, String.mk bn, bid,
                    if direction = "|<-" then PortType.OUTPUT
                    else PortType.INPUT, false⟩⟩
            else
              .ok ⟨some lid,
                   ⟨String.mk bd, String.mk bn, bid,
                    if direction = "|<-" then PortType.OUTPUT
                    else PortType.INPUT, false⟩,
                   anchor⟩
          | none => .error (.valueError "invalid literal for int")
        | none => .error (.valueError "invalid literal for int")
      | _ => .error (.valueError "not enough values to unpack")
    | _ => .error (.valueError "not enough values to unpack")
  | _ => .error .indexError

/-- The scanner state of the `list_links` loops.  `start` is position 0 of
the outer `while` loop; `pending a` means entry `a` has been reached by the
outer loop and awaits the following entry (which supplies the direction
glyph and doubles as the first relation line); `inAnchor direction anchor`
is the inner `while` loop consuming further relation lines for `anchor`. -/
inductive ScanState where
  | start
  | pending (a : String × String)
  | inAnchor (direction : String) (anchor : Port)
deriving DecidableEq, Repr

/-- The scanning loops of `list_links` over the `(id, data)` entries, as a
single left-to-right pass.  Correspondence with the source loops:
* `start` on the first entry makes it the pending anchor (`i = 0`);
* `pending a` on entry `b` runs one outer-loop iteration: parse the anchor
  from `a` with the glyph read from `b`, then enter the inner loop, whose
  first iteration consumes `b` itself as a relation line (no glyph test, as
  in the source, where the inner loop starts at `i + 1`);
* `inAnchor` consumes relation lines while the entry's data field contains
  a glyph (`"|->" in data or "|<-" in data` — substring containment); an
  entry without a glyph ends the inner loop and becomes the next pending
  anchor;
* the list ending while an anchor is pending matches the outer guard
  `i < num_link_lines - 1`: a trailing anchor with no following entry
  produces nothing. -/
def linkScan : ScanState → List (String × String) → Except PyError (List Link)
  | _, [] => .ok []
  | .start, x :: rest => linkScan (.pending x) rest
  | .pending a, b :: rest =>
    match parseAnchor a b with
    | .error e => .error e
    | .ok (direction, p) =>
      match parseRelation direction p b with
      | .error e => .error e
      | .ok l =>
        match linkScan (.inAnchor direction p) rest with
        | .error e => .error e
        | .ok ls => .ok (l :: ls)
  | .inAnchor direction anchor, z :: rest =>
    if lineHasGlyph z.2 then
      match parseRelation direction anchor z with
      | .error e => .error e
      | .ok l =>
        match linkScan (.inAnchor direction anchor) rest with
        | .error e => .error e
        | .ok ls => .ok (l :: ls)
    else
      linkScan (.pending z) rest

/-- `list_links`, as a function of the decoded stdout of
`pw-link --links --id`. -/
def list_links (stdout : String) : Except PyError (List Link) :=
  linkScan ScanState.start (splitIdFromData stdout)

/-! ## Stereo connect / disconnect -/

/-- The value returned by a stereo-level connect: `None` when no channel
connected, the (singleton) `connections` list when exactly one did, and a
`StereoLink` of the first two connections otherwise. -/
inductive ConnectOutcome where
  | stereo (sl : StereoLink)
  | single (ls : List Link)
  | none
deriving DecidableEq, Repr

/-- `if connections: ...` assembly at the end of the stereo connects. -/
def assembleOutcome : List Link → ConnectOutcome
  | [] => .none
  | [l] => .single [l]
  | l1 :: l2 :: _ => .stereo ⟨l1, l2⟩

/-- One channel of `StereoInput.connect`: when both sides are present
(`if self.ch and other.ch` — a `Port` object is always truthy, `None` is
falsy) issue the port-level connect and record
`Link(input=self.ch, output=other.ch, id=None)`; otherwise do nothing. -/
def inputChannelConnect (sp op : Option Port) : Except PyError (List Link) :=
  match sp, op with
  | some a, some b =>
    match Port.connectCmd a b with
    | .error e => .error e
    | .ok _ => .ok [⟨none, a, b⟩]
  | _, _ => .ok []

/-- One channel of `StereoOutput.connect`: the port-level connect runs from
`self` (the output side) and records
`Link(input=other.ch, output=self.ch, id=None)`. -/
def outputChannelConnect (sp op : Option Port) : Except PyError (List Link) :=
  match sp, op with
  | some a, some b =>
    match Port.connectCmd a b with
    | .error e => .error e
    | .ok _ => .ok [⟨none, b, a⟩]
  | _, _ => .ok []

/-- `StereoInput.connect`. -/
def StereoInput.connect (self : StereoInput) (other : StereoOutput) :
    Except PyError ConnectOutcome :=
  match inputChannelConnect self.left other.left with
  | .error e => .error e
  | .ok c1 =>
    match inputChannelConnect self.right other.right with
    | .error e => .error e
    | .ok c2 => .ok (assembleOutcome (c1 ++ c2))

/-- `StereoOutput.connect`. -/
def StereoOutput.connect (self : StereoOutput) (other : StereoInput) :
    Except PyError ConnectOutcome :=
  match outputChannelConnect self.left other.left with
  | .error e => .error e
  | .ok c1 =>
    match outputChannelConnect self.right other.right with
    | .error e => .error e
    | .ok c2 => .ok (assembleOutcome (c1 ++ c2))

/-- One channel of `StereoInput.disconnect` (against a `StereoOutput`):
run the port-level disconnect when both sides are present, else skip. -/
def channelDisconnect (sp op : Option Port) : Except PyError Unit :=
  match sp, op with
  | some a, some b =>
    match Port.disconnectCmd a b with
    | .error e => .error e
    | .ok _ => .ok ()
  | _, _ => .ok ()

/-- `StereoInput.disconnect` (the `StereoOutput`-shaped `other` case). -/
def StereoInput.disconnectFrom (self : StereoInput) (other : StereoOutput) :
    Except PyError Unit :=
  match channelDisconnect self.left other.left with
  | .error e => .error e
  | .ok _ => channelDisconnect self.right other.right

/-- `StereoOutput.disconnect` (the `StereoInput`-shaped `other` case). -/
def StereoOutput.disconnectFrom (self : StereoOutput) (other : StereoInput) :
    Except PyError Unit :=
  match channelDisconnect self.left other.left with
  | .error e => .error e
  | .ok _ => channelDisconnect self.right other.right

/-! ## Helper lemmas -/

/-- A parsed anchor's direction is INPUT exactly when the glyph token read
from the following entry is `"|<-"`, and that glyph token is the first
whitespace-token of that entry's data field. -/
theorem parseAnchor_dir (a b : String × String) (dir : String) (p : Port)
    (h : parseAnchor a b = Except.ok (dir, p)) :
    (p.port_type = PortType.INPUT ↔ dir = "|<-") ∧ dir = firstToken b.2 := by
  unfold parseAnchor at h
  repeat split at h
  all_goals first
    | exact Except.noConfusion h
    | (injection h with h2
       injection h2 with hdir hp
       subst hdir
       subst hp
       simp_all)

/-- A parsed relation entry always yields a link whose `input` port has
direction INPUT and whose `output` port has direction OUTPUT, provided the
anchor's direction agrees with the direction glyph (as `parseAnchor`
guarantees). -/
theorem parseRelation_ports (direction : String) (anchor : Port)
    (r : String × String) (l : Link)
    (hiff : anchor.port_type = PortType.INPUT ↔ direction = "|<-")
    (h : parseRelation direction anchor r = Except.ok l) :
    l.input.port_type = PortType.INPUT ∧
      l.output.port_type = PortType.OUTPUT := by
  unfold parseRelation at h
  repeat split at h
  all_goals first
    | exact Except.noConfusion h
    | (injection h with h2
       subst h2
       cases hat : anchor.port_type <;> simp_all)

/-- Splitting on a separator that does not occur in the first block:
the first block becomes the head line. -/
theorem splitAll_cons_of_not_mem (sep : Char) (l r : List Char)
    (h : sep ∉ l) :
    splitAllChars sep (l ++ sep :: r) = l :: splitAllChars sep r := by
  induction l with
  | nil => simp [splitAllChars]
  | cons c cs ih =>
    have hc : ¬c = sep := by
      intro e
      exact h (by simp [e])
    have hcs : sep ∉ cs := fun m => h (List.mem_cons_of_mem _ m)
    simp only [List.cons_append, splitAllChars, hc, if_false, List.append_eq,
      ih hcs]

/-- The character data of a string concatenation. -/
theorem string_data_append (a b : String) :
    (a ++ b).data = a.data ++ b.data := by
  cases a
  cases b
  rfl

/-- The final `if connections:` of the stereo connects returns `None`
exactly for an empty connections list. -/
theorem assembleOutcome_none_iff (ls : List Link) :
    assembleOutcome ls = ConnectOutcome.none ↔ ls = [] := by
  cases ls with
  | nil => simp [assembleOutcome]
  | cons a tl => cases tl <;> simp [assembleOutcome]

/-- A successful channel step of `StereoInput.connect` contributes no link
exactly when one side of the channel is absent. -/
theorem inputChannelConnect_ok (sp op : Option Port) (c : List Link)
    (h : inputChannelConnect sp op = Except.ok c) :
    c = [] ↔ (sp = none ∨ op = none) := by
  cases sp with
  | none => simp_all [inputChannelConnect]
  | some a =>
    cases op with
    | none => simp_all [inputChannelConnect]
    | some b =>
      simp only [inputChannelConnect] at h
      cases hc : Port.connectCmd a b <;> rw [hc] at h
      · exact Except.noConfusion h
      · injection h with h2
        subst h2
        simp

/-- A successful channel step of `StereoOutput.connect` contributes no link
exactly when one side of the channel is absent. -/
theorem outputChannelConnect_ok (sp op : Option Port) (c : List Link)
    (h : outputChannelConnect sp op = Except.ok c) :
    c = [] ↔ (sp = none ∨ op = none) := by
  cases sp with
  | none => simp_all [outputChannelConnect]
  | some a =>
    cases op with
    | none => simp_all [outputChannelConnect]
    | some b =>
      simp only [outputChannelConnect] at h
      cases hc : Port.connectCmd a b <;> rw [hc] at h
      · exact Except.noConfusion h
      · injection h with h2
        subst h2
        simp

/-- A successful port-level disconnect vector always ends in the
`--disconnect` flag. -/
theorem disconnectCmd_last (a b : Port) (v : List String)
    (h : Port.disconnectCmd a b = Except.ok v) :
    v.getLast? = some "--disconnect" := by
  unfold Port.disconnectCmd at h
  cases hj : joinArguments a b disconnectMessage <;> rw [hj] at h
  · exact Except.noConfusion h
  · injection h with h2
    subst h2
    rw [List.getLast?_concat]

/-- Every vector issued by a per-link disconnect loop ends in
`--disconnect`. -/
theorem eachLink_disconnect_last (ls : List Link)
    (vs : List (List String))
    (h : eachLinkCmd Link.disconnectCmd ls = Except.ok vs) :
    ∀ v ∈ vs, v.getLast? = some "--disconnect" := by
  induction ls generalizing vs with
  | nil =>
    simp only [eachLinkCmd] at h
    injection h with h2
    subst h2
    simp
  | cons l tl ih =>
    simp only [eachLinkCmd] at h
    cases hc : Link.disconnectCmd l <;> rw [hc] at h
    · exact Except.noConfusion h
    · cases hr : eachLinkCmd Link.disconnectCmd tl <;> rw [hr] at h
      · exact Except.noConfusion h
      · injection h with h2
        subst h2
        intro v hv
        rcases List.mem_cons.mp hv with hv | hv
        · subst hv
          exact disconnectCmd_last l.input l.output v hc
        · exact ih _ hr v hv

/-- Every link produced by the `list_links` scanning pass has an
INPUT-direction `input` port and an OUTPUT-direction `output` port, given
that an `inAnchor` state relates the anchor's direction to its glyph as
`parseAnchor` established it. -/
theorem linkScan_ports (st : ScanState) (ls : List (String × String)) :
    ∀ links : List Link,
      (∀ dir p, st = ScanState.inAnchor dir p →
        (p.port_type = PortType.INPUT ↔ dir = "|<-")) →
      linkScan st ls = Except.ok links →
      ∀ l ∈ links, l.input.port_type = PortType.INPUT ∧
        l.output.port_type = PortType.OUTPUT := by
  induction st, ls using linkScan.induct with
  | case1 x =>
    intro links _ hscan l hl
    rw [linkScan] at hscan
    injection hscan with h2
    subst h2
    exact absurd hl (by simp)
  | case2 x rest ih =>
    intro links _ hscan
    rw [linkScan] at hscan
    exact ih links (fun d q hq => ScanState.noConfusion hq) hscan
  | case3 a b rest e ha =>
    intro links _ hscan
    rw [linkScan, ha] at hscan
    exact Except.noConfusion hscan
  | case4 a b rest direction p ha e hrel =>
    intro links _ hscan
    rw [linkScan, ha] at hscan
    dsimp only at hscan
    rw [hrel] at hscan
    exact Except.noConfusion hscan
  | case5 a b rest direction p ha l hrel e hrec ih =>
    intro links _ hscan
    rw [linkScan, ha] at hscan
    dsimp only at hscan
    rw [hrel] at hscan
    dsimp only at hscan
    rw [hrec] at hscan
    exact Except.noConfusion hscan
  | case6 a b rest direction p ha l hrel ls hrec ih =>
    intro links _ hscan l' hl'
    rw [linkScan, ha] at hscan
    dsimp only at hscan
    rw [hrel] at hscan
    dsimp only at hscan
    rw [hrec] at hscan
    injection hscan with h2
    subst h2
    have hiff := (parseAnchor_dir a b direction p ha).1
    rcases List.mem_cons.mp hl' with h | h
    · subst h
      exact parseRelation_ports direction p b l' hiff hrel
    · refine ih ls ?_ hrec l' h
      intro d q hq
      injection hq with hd hp
      subst hd
      subst hp
      exact hiff
  | case7 direction anchor z rest hg e hrel =>
    intro links hctx hscan
    rw [linkScan, if_pos hg, hrel] at hscan
    exact Except.noConfusion hscan
  | case8 direction anchor z rest hg l hrel e hrec ih =>
    intro links hctx hscan
    rw [linkScan, if_pos hg, hrel] at hscan
    dsimp only at hscan
    rw [hrec] at hscan
    exact Except.noConfusion hscan
  | case9 direction anchor z rest hg l hrel ls hrec ih =>
    intro links hctx hscan l' hl'
    rw [linkScan, if_pos hg, hrel] at hscan
    dsimp only at hscan
    rw [hrec] at hscan
    injection hscan with h2
    subst h2
    have hiff := hctx direction anchor rfl
    rcases List.mem_cons.mp hl' with h | h
    · subst h
      exact parseRelation_ports direction anchor z l' hiff hrel
    · refine ih ls ?_ hrec l' h
      intro d q hq
      injection hq with hd hp
      subst hd
      subst hp
      exact hiff
  | case10 direction anchor z rest hg ih =>
    intro links _ hscan
    rw [linkScan, if_neg hg] at hscan
    exact ih links (fun d q hq => ScanState.noConfusion hq) hscan

/-! ## Claim theorems -/

def c1InA : Port := ⟨"mic", "capture_FL", 1, PortType.INPUT, false⟩

def c1InB : Port := ⟨"spk", "playback_FL", 2, PortType.INPUT, false⟩

def c1OutA : Port := ⟨"mic", "capture_FL", 3, PortType.OUTPUT, false⟩

def c1OutB : Port := ⟨"spk", "playback_FL", 4, PortType.OUTPUT, false⟩

/-- C1: evaluating the argument generation at same-direction pairs shows the
code raising `IndexError` (from `str.format` given one argument for two
replacement fields) rather than `InvalidLink`; for the valid
opposite-direction pairs the OUTPUT port's `device:name` token precedes the
INPUT port's token regardless of which operand holds the output role. -/
theorem c1_same_direction_raises_format_error :
    Port.connectCmd c1InA c1InB = Except.error PyError.indexError ∧
    Port.connectCmd c1OutA c1OutB = Except.error PyError.indexError ∧
    Port.disconnectCmd c1InA c1InB = Except.error PyError.indexError ∧
    Port.disconnectCmd c1OutA c1OutB = Except.error PyError.indexError ∧
    Port.connectCmd c1OutA c1InB =
      Except.ok ["pw-link", "mic:capture_FL", "spk:playback_FL"] ∧
    Port.connectCmd c1InB c1OutA =
      Except.ok ["pw-link", "mic:capture_FL", "spk:playback_FL"] :=
  ⟨rfl, rfl, rfl, rfl, rfl, rfl⟩

def c2stdout : String :=
  "83 alsa_output.pci-0000_00.1.analog-stereo:playback_FL\n84 alsa_output.pci-0000_00.1.analog-stereo:playback_FR"

/-- C2: the two-line FL/FR listing parses and pairs into exactly one stereo
group, left member id 83 (the FL port), right member id 84 (the FR port),
device recovered for both. -/
theorem c2_round_trip :
    list_inputs c2stdout true = Except.ok
      [InputItem.stereo
        ⟨some ⟨"alsa_output.pci-0000_00.1.analog-stereo", "playback_FL",
               83, PortType.INPUT, false⟩,
         some ⟨"alsa_output.pci-0000_00.1.analog-stereo", "playback_FR",
               84, PortType.INPUT, false⟩⟩] := rfl

/-- C3: counterexample — port parsing does raise: a two-field line whose
second field has no colon raises `ValueError` at tuple unpacking, and a
two-field line with a non-numeric identifier raises `ValueError` at
`int()`. -/
theorem c3_counterexample :
    list_inputs "83 nocolon" true =
      Except.error (PyError.valueError "not enough values to unpack") ∧
    list_inputs "abc x:y" true =
      Except.error (PyError.valueError "invalid literal for int") :=
  ⟨rfl, rfl⟩

/-- C3 (amended): a line that does not split into exactly two
whitespace-separated fields is silently dropped — prepending such a line to
any input leaves the parse result unchanged. -/
theorem c3_amended_skips_non_two_field_lines (l t : String)
    (h1 : '\n' ∉ l.data)
    (h2 : (pySplitOnceChars ' ' (pyLstripChars l.data)).length ≠ 2) :
    list_inputs (l ++ "\n" ++ t) true = list_inputs t true := by
  have hdata : (l ++ "\n" ++ t).data = l.data ++ '\n' :: t.data := by
    rw [string_data_append, string_data_append, List.append_assoc]
    rfl
  have hnone :
      (match pySplitOnceChars ' ' (pyLstripChars l.data) with
        | [a, b] => some (String.mk (pyStripSpaceChars a),
                          String.mk (pyStripSpaceChars b))
        | _ => none) = (none : Option (String × String)) := by
    cases hsp : pySplitOnceChars ' ' (pyLstripChars l.data) with
    | nil => rfl
    | cons a as =>
      cases as with
      | nil => rfl
      | cons b bs =>
        cases bs with
        | nil => exact absurd (by rw [hsp] ; rfl) h2
        | cons c cs => rfl
  have hsplit : splitIdFromData (l ++ "\n" ++ t) = splitIdFromData t := by
    unfold splitIdFromData
    rw [hdata, splitAll_cons_of_not_mem _ _ _ h1, List.filterMap_cons, hnone]
  unfold list_inputs
  rw [hsplit]

/-- C3 (amended) witness at a concrete one-field line. -/
theorem c3_amended_witness :
    list_inputs ("justonefield" ++ "\n" ++ "83 a:b") true =
      list_inputs "83 a:b" true :=
  c3_amended_skips_non_two_field_lines "justonefield" "83 a:b"
    (by decide) (by decide)

/-- C4: (1) a parsed anchor's direction is INPUT exactly when the relation
line following it carries the glyph `"|<-"` (as its first token); (2) every
link the scan returns stores an INPUT-direction port as `input` and an
OUTPUT-direction port as `output`, whichever side was the anchor. -/
theorem c4_anchor_direction_and_link_fields :
    (∀ (a b : String × String) (dir : String) (p : Port),
        parseAnchor a b = Except.ok (dir, p) →
        ((p.port_type = PortType.INPUT ↔ dir = "|<-") ∧
          dir = firstToken b.2)) ∧
    (∀ (ls : List (String × String)) (links : List Link),
        linkScan ScanState.start ls = Except.ok links →
        ∀ l ∈ links, l.input.port_type = PortType.INPUT ∧
          l.output.port_type = PortType.OUTPUT) := by
  constructor
  · intro a b dir p h
    exact parseAnchor_dir a b dir p h
  · intro ls links h
    exact linkScan_ports ScanState.start ls links
      (fun d q hq => ScanState.noConfusion hq) h

def c4A : String × String := ("10", "a:b")

def c4B : String × String := ("11", "|-> 12 c:d")

def c4Port : Port := ⟨"a", "b", 10, PortType.OUTPUT, false⟩

def c4Link : Link :=
  ⟨some 11, ⟨"c", "d", 12, PortType.INPUT, false⟩, c4Port⟩

/-- C4 witness at a concrete anchor/relation pair. -/
theorem c4_witness :
    ((c4Port.port_type = PortType.INPUT ↔ "|->" = "|<-") ∧
      "|->" = firstToken c4B.2) ∧
    (∀ l ∈ [c4Link], l.input.port_type = PortType.INPUT ∧
      l.output.port_type = PortType.OUTPUT) :=
  ⟨c4_anchor_direction_and_link_fields.1 c4A c4B "|->" c4Port rfl,
   c4_anchor_direction_and_link_fields.2 [c4A, c4B] [c4Link] rfl⟩

def c5stdout : String := "10 a:b\n11 |-> 12 c:d\n13 x|->y 14 c:d"

def c5LinkA : Link :=
  ⟨some 11, ⟨"c", "d", 12, PortType.INPUT, false⟩,
   ⟨"a", "b", 10, PortType.OUTPUT, false⟩⟩

def c5LinkB : Link :=
  ⟨some 13, ⟨"c", "d", 14, PortType.INPUT, false⟩,
   ⟨"a", "b", 10, PortType.OUTPUT, false⟩⟩

/-- C5: counterexample — the third line does not start with either glyph,
yet the scan does not terminate there: it is consumed as a relation line
(the source tests substring containment, not a prefix), producing a second
link where the claim's prefix rule would have ended the anchor's scan. -/
theorem c5_counterexample :
    list_links c5stdout = Except.ok [c5LinkA, c5LinkB] ∧
    (isPrefixChars "|->".data "x|->y 14 c:d".data
      || isPrefixChars "|<-".data "x|->y 14 c:d".data) = false :=
  ⟨rfl, rfl⟩

/-- C5 (amended): one `Link` per relation line — an anchor followed by
three relation lines (the second and third containing a glyph) yields
exactly three links — and the scan for that anchor terminates precisely at
the first subsequent line whose data field does not contain either glyph,
which begins the next anchor. -/
theorem c5_amended_scan (a r1 r2 r3 s : String × String)
    (t : List (String × String)) (dir : String) (p : Port)
    (l1 l2 l3 : Link)
    (ha : parseAnchor a r1 = Except.ok (dir, p))
    (h1 : parseRelation dir p r1 = Except.ok l1)
    (h2 : parseRelation dir p r2 = Except.ok l2)
    (h3 : parseRelation dir p r3 = Except.ok l3)
    (g2 : lineHasGlyph r2.2 = true) (g3 : lineHasGlyph r3.2 = true)
    (gs : lineHasGlyph s.2 = false) :
    linkScan ScanState.start (a :: r1 :: r2 :: r3 :: s :: t) =
      (linkScan ScanState.start (s :: t)).map
        (fun ls => l1 :: l2 :: l3 :: ls) := by
  simp only [linkScan, ha, h1, h2, h3, g2, g3, gs]
  cases hrest : linkScan (ScanState.pending s) t <;>
    simp [hrest, Except.map]

def c5wPort : Port := ⟨"a", "b", 10, PortType.OUTPUT, false⟩

def c5wL1 : Link := ⟨some 11, ⟨"c", "d", 12, PortType.INPUT, false⟩, c5wPort⟩

def c5wL2 : Link := ⟨some 21, ⟨"c", "d", 22, PortType.INPUT, false⟩, c5wPort⟩

def c5wL3 : Link := ⟨some 31, ⟨"c", "d", 32, PortType.INPUT, false⟩, c5wPort⟩

/-- C5 (amended) witness at a concrete anchor with three relation lines. -/
theorem c5_amended_witness :
    linkScan ScanState.start
      [("10", "a:b"), ("11", "|-> 12 c:d"), ("21", "|-> 22 c:d"),
       ("31", "|-> 32 c:d"), ("40", "e:f")] =
      (linkScan ScanState.start [("40", "e:f")]).map
        (fun ls => c5wL1 :: c5wL2 :: c5wL3 :: ls) :=
  c5_amended_scan ("10", "a:b") ("11", "|-> 12 c:d") ("21", "|-> 22 c:d")
    ("31", "|-> 32 c:d") ("40", "e:f") [] "|->" c5wPort c5wL1 c5wL2 c5wL3
    rfl rfl rfl rfl rfl rfl rfl

def c6Out : Port := ⟨"dev", "playback_FL", 7, PortType.OUTPUT, false⟩

def c6In : Port := ⟨"dev2", "capture_FL", 8, PortType.INPUT, false⟩

/-- C6: counterexample — constructing a `Link` whose `input` field holds an
OUTPUT-direction port (and whose `output` field holds an INPUT-direction
port) succeeds, so the direction invariant does not hold of every
successfully constructed `Link`. -/
theorem c6_counterexample :
    (Link.mk (some 5) c6Out c6In).input.port_type = PortType.OUTPUT ∧
    (Link.mk (some 5) c6Out c6In).output.port_type = PortType.INPUT :=
  ⟨rfl, rfl⟩

/-- C6 (amended): the dataclass-generated `Link` constructor performs no
validation: it always succeeds and stores the given ports verbatim,
whatever their directions. -/
theorem c6_amended_no_validation (i : Option Int) (p q : Port) :
    (Link.mk i p q).input = p ∧ (Link.mk i p q).output = q :=
  ⟨rfl, rfl⟩

/-- C7: for stereo-level connect between a `StereoInput` and a
`StereoOutput` (in either direction), a successful call returns `None`
exactly when every channel had an absent side; and a channel with an
absent side is skipped without failing the call — with only the right
channel present (and validly directed), connect returns that single
channel's link and disconnect succeeds. -/
theorem c7_channel_skipping :
    (∀ (si : StereoInput) (so : StereoOutput) (r : ConnectOutcome),
        StereoInput.connect si so = Except.ok r →
        (r = ConnectOutcome.none ↔
          ((si.left = none ∨ so.left = none) ∧
            (si.right = none ∨ so.right = none)))) ∧
    (∀ (so : StereoOutput) (si : StereoInput) (r : ConnectOutcome),
        StereoOutput.connect so si = Except.ok r →
        (r = ConnectOutcome.none ↔
          ((so.left = none ∨ si.left = none) ∧
            (so.right = none ∨ si.right = none)))) ∧
    (∀ (si : StereoInput) (so : StereoOutput) (a b : Port),
        (si.left = none ∨ so.left = none) →
        si.right = some a → so.right = some b →
        a.port_type = PortType.INPUT → b.port_type = PortType.OUTPUT →
        StereoInput.connect si so =
          Except.ok (ConnectOutcome.single [⟨none, a, b⟩])) ∧
    (∀ (si : StereoInput) (so : StereoOutput) (a b : Port),
        (si.left = none ∨ so.left = none) →
        si.right = some a → so.right = some b →
        a.port_type = PortType.INPUT → b.port_type = PortType.OUTPUT →
        StereoInput.disconnectFrom si so = Except.ok ()) := by
  refine ⟨?_, ?_, ?_, ?_⟩
  · intro si so r h
    unfold StereoInput.connect at h
    cases h1 : inputChannelConnect si.left so.left <;> rw [h1] at h
    · exact Except.noConfusion h
    · cases h2 : inputChannelConnect si.right so.right <;> rw [h2] at h
      · exact Except.noConfusion h
      · injection h with h3
        subst h3
        rw [assembleOutcome_none_iff, List.append_eq_nil,
            inputChannelConnect_ok _ _ _ h1, inputChannelConnect_ok _ _ _ h2]
  · intro so si r h
    unfold StereoOutput.connect at h
    cases h1 : outputChannelConnect so.left si.left <;> rw [h1] at h
    · exact Except.noConfusion h
    · cases h2 : outputChannelConnect so.right si.right <;> rw [h2] at h
      · exact Except.noConfusion h
      · injection h with h3
        subst h3
        rw [assembleOutcome_none_iff, List.append_eq_nil,
            outputChannelConnect_ok _ _ _ h1, outputChannelConnect_ok _ _ _ h2]
  · intro si so a b hl hr hor ha hb
    have hleft : inputChannelConnect si.left so.left = Except.ok [] := by
      rcases hl with h | h
      · rw [h]
        cases so.left <;> rfl
      · rw [h]
        cases si.left <;> rfl
    have hright : inputChannelConnect si.right so.right =
        Except.ok [⟨none, a, b⟩] := by
      rw [hr, hor]
      simp [inputChannelConnect, Port.connectCmd, joinArguments, ha, hb]
    unfold StereoInput.connect
    rw [hleft, hright]
    rfl
  · intro si so a b hl hr hor ha hb
    have hleft : channelDisconnect si.left so.left = Except.ok () := by
      rcases hl with h | h
      · rw [h]
        cases so.left <;> rfl
      · rw [h]
        cases si.left <;> rfl
    have hright : channelDisconnect si.right so.right = Except.ok () := by
      rw [hr, hor]
      simp [channelDisconnect, Port.disconnectCmd, joinArguments, ha, hb]
    unfold StereoInput.disconnectFrom
    rw [hleft, hright]

def c7A : Port := ⟨"dst", "playback_FR", 51, PortType.INPUT, false⟩

def c7B : Port := ⟨"src", "capture_FR", 52, PortType.OUTPUT, false⟩

/-- C7 witness: both-absent stereo pairs connect to `None` on both call
directions, and a pair with only the right channel present connects to a
single link and disconnects without failing. -/
theorem c7_witness :
    (ConnectOutcome.none = ConnectOutcome.none ↔
      (((none : Option Port) = none ∨ (none : Option Port) = none) ∧
       ((none : Option Port) = none ∨ (none : Option Port) = none))) ∧
    (ConnectOutcome.none = ConnectOutcome.none ↔
      (((none : Option Port) = none ∨ (none : Option Port) = none) ∧
       ((none : Option Port) = none ∨ (none : Option Port) = none))) ∧
    StereoInput.connect ⟨none, some c7A⟩ ⟨some c7B, some c7B⟩ =
      Except.ok (ConnectOutcome.single [⟨none, c7A, c7B⟩]) ∧
    StereoInput.disconnectFrom ⟨none, some c7A⟩ ⟨some c7B, some c7B⟩ =
      Except.ok () :=
  ⟨c7_channel_skipping.1 ⟨none, none⟩ ⟨none, none⟩ ConnectOutcome.none rfl,
   c7_channel_skipping.2.1 ⟨none, none⟩ ⟨none, none⟩ ConnectOutcome.none rfl,
   c7_channel_skipping.2.2.1 ⟨none, some c7A⟩ ⟨some c7B, some c7B⟩ c7A c7B
     (Or.inl rfl) rfl rfl rfl rfl,
   c7_channel_skipping.2.2.2 ⟨none, some c7A⟩ ⟨some c7B, some c7B⟩ c7A c7B
     (Or.inl rfl) rfl rfl rfl rfl⟩

def c8InL : Port := ⟨"dst", "playback_FL", 21, PortType.INPUT, false⟩

def c8OutL : Port := ⟨"src", "capture_FL", 22, PortType.OUTPUT, false⟩

def c8InR : Port := ⟨"dst", "playback_FR", 23, PortType.INPUT, false⟩

def c8OutR : Port := ⟨"src", "capture_FR", 24, PortType.OUTPUT, false⟩

def c8LinkL : Link := ⟨some 31, c8InL, c8OutL⟩

def c8LinkR : Link := ⟨some 32, c8InR, c8OutR⟩

/-- C8: evaluating the accessors at a concrete `StereoLink` shows the
returned views holding the member `Link` objects themselves (`self.left`,
`self.right`), not the links' input/output ports (`self.left.input` is
`c8InL`, which is not what populates the view). -/
theorem c8_accessors_return_links :
    StereoLink.inputs ⟨c8LinkL, c8LinkR⟩ = DynStereo.mk c8LinkL c8LinkR ∧
    StereoLink.outputs ⟨c8LinkL, c8LinkR⟩ = DynStereo.mk c8LinkL c8LinkR ∧
    c8LinkL.input = c8InL ∧ c8LinkR.input = c8InR ∧
    c8LinkL.output = c8OutL ∧ c8LinkR.output = c8OutR :=
  ⟨rfl, rfl, rfl, rfl, rfl, rfl⟩

/-- C9: stereo pairing is a pure function of the ordered port sequence —
equal ordered inputs always produce equal groupings, for inputs and
outputs alike. -/
theorem c9_pairing_deterministic (p q : List Port) (h : p = q) :
    pairInputs p = pairInputs q ∧ pairOutputs p = pairOutputs q := by
  subst h
  exact ⟨rfl, rfl⟩

def c9Ports : List Port :=
  [⟨"d", "playback_FL", 1, PortType.INPUT, false⟩,
   ⟨"d", "playback_FR", 2, PortType.INPUT, false⟩]

/-- C9 witness at a concrete port list. -/
theorem c9_witness :
    pairInputs c9Ports = pairInputs c9Ports ∧
    pairOutputs c9Ports = pairOutputs c9Ports :=
  c9_pairing_deterministic c9Ports c9Ports rfl

/-- C10: `LinkGroup.reconnect` is extensionally the same operation as
`LinkGroup.disconnect` — it iterates the member links in order issuing a
disconnect for each — so it emits exactly the disconnect argument vectors,
every one ending in `--disconnect` (never a connect command). -/
theorem c10_reconnect_equals_disconnect (lg : LinkGroup) :
    LinkGroup.reconnectCmds lg = LinkGroup.disconnectCmds lg ∧
    (∀ vs, LinkGroup.reconnectCmds lg = Except.ok vs →
      ∀ v ∈ vs, v.getLast? = some "--disconnect") := by
  refine ⟨rfl, ?_⟩
  intro vs h v hv
  exact eachLink_disconnect_last lg.links vs h v hv

def c10Group : LinkGroup :=
  ⟨"dev", "FL",
   [⟨some 9, ⟨"dst", "playback_FL", 41, PortType.INPUT, false⟩,
     ⟨"src", "capture_FL", 42, PortType.OUTPUT, false⟩⟩]⟩

/-- C10 witness at a concrete one-link group. -/
theorem c10_witness :
    LinkGroup.reconnectCmds c10Group = LinkGroup.disconnectCmds c10Group ∧
    (["pw-link", "src:capture_FL", "dst:playback_FL",
      "--disconnect"] : List String).getLast? = some "--disconnect" :=
  ⟨(c10_reconnect_equals_disconnect c10Group).1,
   (c10_reconnect_equals_disconnect c10Group).2
     [["pw-link", "src:capture_FL", "dst:playback_FL", "--disconnect"]]
     rfl _ (by simp)⟩
